import Mathlib

/-!
Shallow embedding of the LightBnB data-access layer
(src/LightBnB_WebApp-master/server/database.js) and verification of its
specification.

Scalar values flowing through the layer are modelled by `JsValue`
(undefined, string, number); JS truthiness is `JsValue.truthy`.  Numbers are
modelled as exact rationals.  The `options` object of `getAllProperties` is
modelled as the filter set of the five recognized keys, each optionally
present (`none` = key absent from the object, `some v` = key present with
value `v`).  Query execution is modelled by passing an explicit store
function `db : String -> List JsValue -> Except String (List Row)`; the
query-building parts are pure and are factored out as `...Query`
definitions so that the produced SQL text and positional argument list can
be inspected directly.
-/

/-- Model of a JS scalar value as it flows through this layer: `undefined`,
a string, or a number (modelled as an exact rational; NaN and the quirks of
floating point are outside the model, and no claim below depends on them). -/
inductive JsValue where
  | undef : JsValue
  | str : String → JsValue
  | num : Rat → JsValue
deriving DecidableEq

/-- JS truthiness of a `JsValue`: `undefined` is falsy, a string is truthy
iff nonempty, a number is truthy iff nonzero. -/
def JsValue.truthy : JsValue → Bool
  | .undef => false
  | .str s => !(s == "")
  | .num q => !(q == 0)

/-- Model of the JS `Number()` conversion as used in database.js.  It is
only ever applied to values that are already numeric in the claims below;
a string is mapped to 0 as a placeholder for the out-of-model NaN path. -/
def JsValue.toNumber : JsValue → Rat
  | .undef => 0
  | .str _ => 0
  | .num q => q

/-- Model of JS template-literal stringification, used only for the
wildcard-wrapped city value pushed into the argument list. -/
def JsValue.interp : JsValue → String
  | .undef => "undefined"
  | .str s => s
  | .num q => toString q

/-- Boolean prefix test on character lists. -/
def listPre : List Char → List Char → Bool
  | [], _ => true
  | _ :: _, [] => false
  | a :: as, b :: bs => a == b && listPre as bs

/-- Boolean infix (substring) test on character lists. -/
def listInf : List Char → List Char → Bool
  | pat, [] => listPre pat []
  | pat, c :: cs => listPre pat (c :: cs) || listInf pat cs

/-- Substring containment on strings, the model of JS String.includes:
`strIncludes hay pat` holds when `pat` occurs contiguously in `hay`. -/
def strIncludes (hay pat : String) : Bool := listInf pat.toList hay.toList

/-- Suffix test on strings. -/
def strEnds (s pat : String) : Bool := listPre pat.toList.reverse s.toList.reverse

/-- Index (in characters) of the first occurrence of `pat`, scanning from
offset `i`. -/
def firstOccurFrom (pat : List Char) : List Char → Nat → Option Nat
  | [], i => if listPre pat [] then some i else none
  | c :: cs, i => if listPre pat (c :: cs) then some i else firstOccurFrom pat cs (i + 1)

/-- Index of the first occurrence of `pat` in `hay`, if any. -/
def firstOccur (hay pat : String) : Option Nat := firstOccurFrom pat.toList hay.toList 0

/-- Holds when both patterns occur in `hay` and the first occurrence of
`p1` strictly precedes the first occurrence of `p2`. -/
def strBefore (hay p1 p2 : String) : Bool :=
  match firstOccur hay p1, firstOccur hay p2 with
  | some i, some j => decide (i < j)
  | _, _ => false

/-- The options object accepted by `getAllProperties`, restricted to the
five recognized filter keys of the spec data model.  A field is `none` when
the key is absent from the object and `some v` when it is present with
value `v` (which may itself be falsy, e.g. `some (.num 0)`). -/
structure Options where
  city : Option JsValue
  owner_id : Option JsValue
  minimum_price_per_night : Option JsValue
  maximum_price_per_night : Option JsValue
  minimum_rating : Option JsValue
deriving DecidableEq

/-- The empty options object (no key present). -/
def Options.empty : Options := ⟨none, none, none, none, none⟩

/-- JS destructuring of an options field: an absent key reads as
`undefined`. -/
def optVal : Option JsValue → JsValue
  | none => .undef
  | some v => v

/-- Object.entries of the options object: the list of (key, value) pairs
for the keys actually present, in the fixed declaration order of the five
recognized keys. -/
def Options.entries (o : Options) : List (String × JsValue) :=
  List.filterMap (fun p : String × Option JsValue => p.2.map (fun v => (p.1, v)))
    [("city", o.city), ("owner_id", o.owner_id),
     ("minimum_price_per_night", o.minimum_price_per_night),
     ("maximum_price_per_night", o.maximum_price_per_night),
     ("minimum_rating", o.minimum_rating)]

/-- The list of WHERE-eligible filter keys, as written in database.js. -/
def whereFilterKeys : List String :=
  ["city", "owner_id", "minimum_price_per_night", "maximum_price_per_night"]

/-- Embeds the first guard of getAllProperties:
Object.keys(options).some(key => options[key] && [...whereFilterKeys].includes(key)). -/
def whereOptionUsed (o : Options) : Bool :=
  o.entries.any (fun e => e.2.truthy && whereFilterKeys.contains e.1)

/-- Embeds the second guard of getAllProperties:
Object.entries(options).some(op => op[1] && (String minimum_rating).includes(op[0])).
Note the source tests key membership with String.includes (substring), not
equality; over the five recognized keys only minimum_rating itself is a
substring of minimum_rating. -/
def havingOptionUsed (o : Options) : Bool :=
  o.entries.any (fun e => e.2.truthy && strIncludes "minimum_rating" e.1)

/-- The four conditional pushes of the WHERE section of getAllProperties,
run on the (initially empty) queryValues and whereStrings arrays.  Each
branch pushes the bound value first and then a predicate fragment whose
placeholder index is the new length of queryValues, exactly as in the
source. -/
def wherePushes (options : Options) : List JsValue × List String :=
  let city := optVal options.city
  let owner_id := optVal options.owner_id
  let minimum_price_per_night := optVal options.minimum_price_per_night
  let maximum_price_per_night := optVal options.maximum_price_per_night
  let acc : List JsValue × List String := ([], [])
  let acc :=
    if city.truthy then
      let queryValues := acc.1 ++ [JsValue.str ("%" ++ city.interp ++ "%")]
      (queryValues, acc.2 ++ ["city LIKE $" ++ toString queryValues.length])
    else acc
  let acc :=
    if owner_id.truthy then
      let queryValues := acc.1 ++ [owner_id]
      (queryValues, acc.2 ++ ["owner_id = $" ++ toString queryValues.length])
    else acc
  let acc :=
    if minimum_price_per_night.truthy then
      let queryValues := acc.1 ++ [JsValue.num (minimum_price_per_night.toNumber * 100)]
      (queryValues, acc.2 ++ ["cost_per_night >= $" ++ toString queryValues.length])
    else acc
  let acc :=
    if maximum_price_per_night.truthy then
      let queryValues := acc.1 ++ [JsValue.num (maximum_price_per_night.toNumber * 100)]
      (queryValues, acc.2 ++ ["cost_per_night <= $" ++ toString queryValues.length])
    else acc
  acc

/-- The number of WHERE-eligible filters that are present and truthy. -/
def whereCount (o : Options) : Nat :=
  (optVal o.city).truthy.toNat + (optVal o.owner_id).truthy.toNat +
    (optVal o.minimum_price_per_night).truthy.toNat +
    (optVal o.maximum_price_per_night).truthy.toNat

/-- The query-building part of getAllProperties: given the options object
and the row limit, produce the SQL text and the positional argument list,
mirroring database.js lines 99-171. -/
def getAllPropertiesQuery (options : Options) (limit : JsValue) :
    String × List JsValue :=
  let minimum_rating := optVal options.minimum_rating
  let queryString :=
    "\n    SELECT properties.*, avg(property_reviews.rating) as average_rating\n    FROM properties\n    JOIN property_reviews ON properties.id = property_id "
  let (queryString, queryValues) :=
    if whereOptionUsed options then
      let queryString := queryString ++ "WHERE "
      let (queryValues, whereStrings) := wherePushes options
      (queryString ++
        (if whereStrings.length != 0 then String.intercalate " AND " whereStrings ++ " " else ""),
       queryValues)
    else (queryString, ([] : List JsValue))
  let queryString := queryString ++ "GROUP BY properties.id "
  let (queryString, queryValues) :=
    if havingOptionUsed options then
      let queryString := queryString ++ "HAVING "
      let (queryValues, havingStrings) :=
        if minimum_rating.truthy then
          let queryValues := queryValues ++ [JsValue.num minimum_rating.toNumber]
          (queryValues,
           (["\n      avg(property_reviews.rating) >= $" ++ toString queryValues.length ++ " "] :
             List String))
        else (queryValues, ([] : List String))
      (queryString ++
        (if havingStrings.length != 0 then String.intercalate " AND " havingStrings ++ " " else ""),
       queryValues)
    else (queryString, queryValues)
  let queryValues := queryValues ++ [limit]
  let queryString :=
    queryString ++ "\n  ORDER BY cost_per_night\n  LIMIT $" ++ toString queryValues.length
  (queryString, queryValues)

/-- The JS default for the limit parameter of getAllProperties and
getAllReservations (limit = 10). -/
def defaultLimit : JsValue := JsValue.num 10

/-- A call of the query builder without a limit argument, which JS fills
with the default parameter value 10. -/
def getAllPropertiesQueryNoLimit (options : Options) : String × List JsValue :=
  getAllPropertiesQuery options defaultLimit

/-- Outcome shape of a list query as surfaced to JS callers: either the
rows array itself, or the JS null value. -/
inductive QueryOutcome (Row : Type) where
  | null : QueryOutcome Row
  | rows : List Row → QueryOutcome Row
deriving DecidableEq

/-- The query text of getAllReservations, transcribed from database.js
lines 73-85.  The guest filter is the literal 1 in the text. -/
def getAllReservationsText : String :=
  "SELECT  reservations.*\n        ,properties.*\n        ,AVG(rating) AS average_rating\n  FROM properties\n  JOIN reservations\n  ON properties.id = reservations.property_id\n  JOIN property_reviews\n  ON properties.id = property_reviews.property_id\n  WHERE reservations.guest_id = 1 \n  GROUP BY  reservations.id\n            ,properties.id\n  ORDER BY reservations.start_date\n  LIMIT $1;"

/-- The query-building part of getAllReservations: the fixed query text
plus the argument list values = [limit].  The guest id parameter is
accepted but, as in the source, never used. -/
def getAllReservationsQuery (guest_id : JsValue) (limit : JsValue) :
    String × List JsValue :=
  let _ := guest_id
  let values := [limit]
  (getAllReservationsText, values)

/-- Full getAllReservations run against a store: issues the built query
and maps the result through the handler
res => res.rows.length ? res.rows : null. -/
def getAllReservations {Row : Type} (guest_id : JsValue) (limit : JsValue)
    (db : String → List JsValue → Except String (List Row)) :
    Except String (QueryOutcome Row) :=
  let q := getAllReservationsQuery guest_id limit
  (db q.1 q.2).map (fun rows => if rows.length != 0 then .rows rows else .null)

/-- Full getAllProperties run against a store: issues the built query and
returns res.rows unchanged (never null). -/
def getAllProperties {Row : Type} (options : Options) (limit : JsValue)
    (db : String → List JsValue → Except String (List Row)) :
    Except String (QueryOutcome Row) :=
  let q := getAllPropertiesQuery options limit
  (db q.1 q.2).map (fun rows => QueryOutcome.rows rows)

/-- The shared single-row result shaping of the user lookups:
res => res.rows.length ? res.rows[0] : null. -/
def singleRowOrNull {Row : Type} (rows : List Row) : Option Row :=
  if h : 0 < rows.length then some (rows.get ⟨0, h⟩) else none

/-- getUserWithEmail from database.js lines 10-21: a single parameterized
equality query whose result is shaped to the first row or null. -/
def getUserWithEmail {Row : Type} (email : JsValue)
    (db : String → List JsValue → Except String (List Row)) :
    Except String (Option Row) :=
  let values := [email]
  (db "\n  SELECT users.*\n  FROM users\n  WHERE users.email = $1; \n  " values).map
    singleRowOrNull

/-- getUserWithId from database.js lines 29-41: same shape as the email
lookup, with the id passed through Number(). -/
def getUserWithId {Row : Type} (id : JsValue)
    (db : String → List JsValue → Except String (List Row)) :
    Except String (Option Row) :=
  let values := [JsValue.num id.toNumber]
  (db "\n  SELECT users.*\n  FROM users\n  WHERE users.id = $1; \n  " values).map
    singleRowOrNull

/-- Holds of a fragment list when the fragment at 0-based position i
references placeholder index i + 1, i.e. the Nth pushed value is referenced
as $N by the predicate generated alongside it. -/
def fragsMatchPositions (l : List String) : Bool :=
  l.enum.all (fun p => strEnds p.2 ("$" ++ toString (p.1 + 1)))

/-- Equation lemma: undefined is falsy. -/
theorem truthy_undef : JsValue.undef.truthy = false := rfl

/-- Equation lemma for reading an absent options key. -/
theorem optVal_none : optVal none = JsValue.undef := rfl

/-- Equation lemma for reading a present options key. -/
theorem optVal_some (v : JsValue) : optVal (some v) = v := rfl

/-- The WHERE guard of getAllProperties is equivalent to the disjunction of
the truthiness of the four WHERE-eligible filters. -/
theorem whereOptionUsed_eq (o : Options) :
    whereOptionUsed o =
      ((optVal o.city).truthy || (optVal o.owner_id).truthy ||
        (optVal o.minimum_price_per_night).truthy ||
        (optVal o.maximum_price_per_night).truthy) := by
  rcases o with ⟨c, ow, mi, ma, mr⟩
  rcases c with _ | cv <;> rcases ow with _ | owv <;> rcases mi with _ | miv <;>
    rcases ma with _ | mav <;> rcases mr with _ | mrv <;>
    simp [whereOptionUsed, Options.entries, optVal, whereFilterKeys, JsValue.truthy,
      Bool.or_assoc]

/-- The HAVING guard of getAllProperties is equivalent to the truthiness of
the minimum_rating filter: among the five recognized keys, only
minimum_rating itself passes the substring membership test of the source. -/
theorem havingOptionUsed_eq (o : Options) :
    havingOptionUsed o = (optVal o.minimum_rating).truthy := by
  rcases o with ⟨c, ow, mi, ma, mr⟩
  rcases c with _ | cv <;> rcases ow with _ | owv <;> rcases mi with _ | miv <;>
    rcases ma with _ | mav <;> rcases mr with _ | mrv <;>
    simp [havingOptionUsed, Options.entries, optVal, strIncludes, listInf, listPre,
      JsValue.truthy]

set_option maxRecDepth 8000 in
/-- C1: for any combination of the four WHERE-eligible filters with truthy
values, the queryValues accumulated by the WHERE section have exactly one
entry per present (truthy) filter, as do the predicate fragments; the full
argument list of the query adds only the optional rating value and the
final limit after them; and each generated predicate references the
placeholder index equal to the 1-based position of its bound value (the
fragment at 0-based position i ends in the placeholder i + 1). -/
theorem getAllProperties_where_placeholders_track_push_order
    (o : Options) (limit : JsValue) :
    (wherePushes o).1.length = whereCount o ∧
    (wherePushes o).2.length = whereCount o ∧
    (getAllPropertiesQuery o limit).2.length
      = whereCount o + (optVal o.minimum_rating).truthy.toNat + 1 ∧
    fragsMatchPositions (wherePushes o).2 = true := by
  cases hc : (optVal o.city).truthy <;> cases how : (optVal o.owner_id).truthy <;>
    cases hmi : (optVal o.minimum_price_per_night).truthy <;>
    cases hma : (optVal o.maximum_price_per_night).truthy <;>
    cases hmr : (optVal o.minimum_rating).truthy <;>
    simp [wherePushes, whereCount, getAllPropertiesQuery, whereOptionUsed_eq,
      havingOptionUsed_eq, hc, how, hmi, hma, hmr] <;>
    decide

set_option maxRecDepth 8000 in
/-- C2: when none of the four WHERE-eligible filters is present with a
truthy value, the generated query string contains no WHERE keyword. -/
theorem getAllProperties_no_where_filters_no_where_keyword
    (o : Options) (limit : JsValue)
    (hc : (optVal o.city).truthy = false)
    (how : (optVal o.owner_id).truthy = false)
    (hmi : (optVal o.minimum_price_per_night).truthy = false)
    (hma : (optVal o.maximum_price_per_night).truthy = false) :
    strIncludes (getAllPropertiesQuery o limit).1 "WHERE" = false := by
  cases hmr : (optVal o.minimum_rating).truthy <;>
    simp [getAllPropertiesQuery, whereOptionUsed_eq, havingOptionUsed_eq,
      hc, how, hmi, hma, hmr] <;>
    decide

/-- Witness for C2 at the empty options object with the default limit. -/
theorem getAllProperties_no_where_filters_no_where_keyword_witness :
    strIncludes (getAllPropertiesQuery Options.empty (JsValue.num 10)).1 "WHERE"
      = false :=
  getAllProperties_no_where_filters_no_where_keyword Options.empty (JsValue.num 10)
    (by decide) (by decide) (by decide) (by decide)

set_option maxRecDepth 8000 in
/-- C3: the query string contains a HAVING clause exactly when
minimum_rating is present and truthy; and in that case the clause compares
the average-rating aggregate against the fresh placeholder whose index is
one past the WHERE placeholders, bound to the Number conversion of the
minimum_rating value at that position of the argument list. -/
theorem getAllProperties_having_iff_minimum_rating (o : Options) (limit : JsValue) :
    (strIncludes (getAllPropertiesQuery o limit).1 "HAVING"
        = (optVal o.minimum_rating).truthy) ∧
    ((optVal o.minimum_rating).truthy = true →
      strIncludes (getAllPropertiesQuery o limit).1
          ("avg(property_reviews.rating) >= $" ++ toString (whereCount o + 1)) = true ∧
      (getAllPropertiesQuery o limit).2[whereCount o]?
        = some (JsValue.num (optVal o.minimum_rating).toNumber)) := by
  cases hc : (optVal o.city).truthy <;> cases how : (optVal o.owner_id).truthy <;>
    cases hmi : (optVal o.minimum_price_per_night).truthy <;>
    cases hma : (optVal o.maximum_price_per_night).truthy <;>
    cases hmr : (optVal o.minimum_rating).truthy <;>
    simp [wherePushes, whereCount, getAllPropertiesQuery, whereOptionUsed_eq,
      havingOptionUsed_eq, hc, how, hmi, hma, hmr] <;>
    decide

/-- Witness for C3 at options with only minimum_rating = 4. -/
theorem getAllProperties_having_iff_minimum_rating_witness :
    strIncludes
        (getAllPropertiesQuery ⟨none, none, none, none, some (JsValue.num 4)⟩
          (JsValue.num 10)).1
        ("avg(property_reviews.rating) >= $"
          ++ toString (whereCount ⟨none, none, none, none, some (JsValue.num 4)⟩ + 1))
      = true ∧
    (getAllPropertiesQuery ⟨none, none, none, none, some (JsValue.num 4)⟩
        (JsValue.num 10)).2[whereCount ⟨none, none, none, none, some (JsValue.num 4)⟩]?
      = some (JsValue.num
          (optVal (⟨none, none, none, none, some (JsValue.num 4)⟩ : Options).minimum_rating).toNumber) :=
  (getAllProperties_having_iff_minimum_rating
    ⟨none, none, none, none, some (JsValue.num 4)⟩ (JsValue.num 10)).2 (by decide)

set_option maxRecDepth 8000 in
/-- C4: at options (city van, minimum_rating 4) with limit 5, the argument
list is [%van%, 4, 5] and the query has its clauses in the order WHERE,
GROUP BY, HAVING, ORDER BY, LIMIT, with the city predicate on placeholder
one, the rating predicate on placeholder two, and LIMIT on placeholder
three. -/
theorem getAllProperties_city_van_rating_four_limit_five :
    (getAllPropertiesQuery ⟨some (JsValue.str "van"), none, none, none,
        some (JsValue.num 4)⟩ (JsValue.num 5)).2
      = [JsValue.str "%van%", JsValue.num 4, JsValue.num 5] ∧
    strBefore (getAllPropertiesQuery ⟨some (JsValue.str "van"), none, none, none,
        some (JsValue.num 4)⟩ (JsValue.num 5)).1 "WHERE" "GROUP BY" = true ∧
    strBefore (getAllPropertiesQuery ⟨some (JsValue.str "van"), none, none, none,
        some (JsValue.num 4)⟩ (JsValue.num 5)).1 "GROUP BY" "HAVING" = true ∧
    strBefore (getAllPropertiesQuery ⟨some (JsValue.str "van"), none, none, none,
        some (JsValue.num 4)⟩ (JsValue.num 5)).1 "HAVING" "ORDER BY" = true ∧
    strBefore (getAllPropertiesQuery ⟨some (JsValue.str "van"), none, none, none,
        some (JsValue.num 4)⟩ (JsValue.num 5)).1 "ORDER BY" "LIMIT" = true ∧
    strIncludes (getAllPropertiesQuery ⟨some (JsValue.str "van"), none, none, none,
        some (JsValue.num 4)⟩ (JsValue.num 5)).1 "city LIKE $1" = true ∧
    strIncludes (getAllPropertiesQuery ⟨some (JsValue.str "van"), none, none, none,
        some (JsValue.num 4)⟩ (JsValue.num 5)).1 "avg(property_reviews.rating) >= $2"
      = true ∧
    strIncludes (getAllPropertiesQuery ⟨some (JsValue.str "van"), none, none, none,
        some (JsValue.num 4)⟩ (JsValue.num 5)).1 "LIMIT $3" = true := by
  refine ⟨?_, by decide, by decide, by decide, by decide, by decide, by decide, by decide⟩
  simp [getAllPropertiesQuery, wherePushes, whereOptionUsed_eq, havingOptionUsed_eq,
    optVal, JsValue.truthy, JsValue.toNumber, JsValue.interp]

set_option maxRecDepth 8000 in
set_option maxHeartbeats 1600000 in
/-- C5: a filter that is present with a falsy value contributes nothing:
for each of the five filter keys, replacing a present falsy value by
outright absence leaves the produced query string and argument list
unchanged. -/
theorem getAllProperties_falsy_filter_treated_as_absent
    (o : Options) (limit v : JsValue) (hv : v.truthy = false) :
    getAllPropertiesQuery { o with city := some v } limit
      = getAllPropertiesQuery { o with city := none } limit ∧
    getAllPropertiesQuery { o with owner_id := some v } limit
      = getAllPropertiesQuery { o with owner_id := none } limit ∧
    getAllPropertiesQuery { o with minimum_price_per_night := some v } limit
      = getAllPropertiesQuery { o with minimum_price_per_night := none } limit ∧
    getAllPropertiesQuery { o with maximum_price_per_night := some v } limit
      = getAllPropertiesQuery { o with maximum_price_per_night := none } limit ∧
    getAllPropertiesQuery { o with minimum_rating := some v } limit
      = getAllPropertiesQuery { o with minimum_rating := none } limit := by
  cases hc : (optVal o.city).truthy <;> cases how : (optVal o.owner_id).truthy <;>
    cases hmi : (optVal o.minimum_price_per_night).truthy <;>
    cases hma : (optVal o.maximum_price_per_night).truthy <;>
    cases hmr : (optVal o.minimum_rating).truthy <;>
    simp [getAllPropertiesQuery, wherePushes, whereOptionUsed_eq, havingOptionUsed_eq,
      optVal_none, optVal_some, truthy_undef, hv, hc, how, hmi, hma, hmr]

/-- Witness for C5 at the empty options object with the falsy value 0. -/
theorem getAllProperties_falsy_filter_treated_as_absent_witness :
    getAllPropertiesQuery { Options.empty with city := some (JsValue.num 0) }
        (JsValue.num 10)
      = getAllPropertiesQuery { Options.empty with city := none } (JsValue.num 10) ∧
    getAllPropertiesQuery { Options.empty with owner_id := some (JsValue.num 0) }
        (JsValue.num 10)
      = getAllPropertiesQuery { Options.empty with owner_id := none } (JsValue.num 10) ∧
    getAllPropertiesQuery
        { Options.empty with minimum_price_per_night := some (JsValue.num 0) }
        (JsValue.num 10)
      = getAllPropertiesQuery { Options.empty with minimum_price_per_night := none }
          (JsValue.num 10) ∧
    getAllPropertiesQuery
        { Options.empty with maximum_price_per_night := some (JsValue.num 0) }
        (JsValue.num 10)
      = getAllPropertiesQuery { Options.empty with maximum_price_per_night := none }
          (JsValue.num 10) ∧
    getAllPropertiesQuery { Options.empty with minimum_rating := some (JsValue.num 0) }
        (JsValue.num 10)
      = getAllPropertiesQuery { Options.empty with minimum_rating := none }
          (JsValue.num 10) :=
  getAllProperties_falsy_filter_treated_as_absent Options.empty (JsValue.num 10)
    (JsValue.num 0) (by decide)

set_option maxRecDepth 8000 in
/-- C6: each present and truthy price-bound filter has its value passed
through Number and multiplied by 100 before being pushed onto the argument
list; in particular minimum_price_per_night = 1.5 alone yields the argument
list [150, 10]. -/
theorem getAllProperties_price_bounds_converted_to_minor_units
    (o : Options) (limit v : JsValue) :
    (o.minimum_price_per_night = some v → v.truthy = true →
      JsValue.num (v.toNumber * 100) ∈ (getAllPropertiesQuery o limit).2) ∧
    (o.maximum_price_per_night = some v → v.truthy = true →
      JsValue.num (v.toNumber * 100) ∈ (getAllPropertiesQuery o limit).2) ∧
    (getAllPropertiesQuery ⟨none, none, some (JsValue.num 1.5), none, none⟩
        (JsValue.num 10)).2
      = [JsValue.num 150, JsValue.num 10] := by
  refine ⟨fun h htv => ?_, fun h htv => ?_, ?_⟩
  · cases hc : (optVal o.city).truthy <;> cases how : (optVal o.owner_id).truthy <;>
      cases hma : (optVal o.maximum_price_per_night).truthy <;>
      cases hmr : (optVal o.minimum_rating).truthy <;>
      simp [getAllPropertiesQuery, wherePushes, whereOptionUsed_eq, havingOptionUsed_eq,
        h, optVal_some, htv, hc, how, hma, hmr]
  · cases hc : (optVal o.city).truthy <;> cases how : (optVal o.owner_id).truthy <;>
      cases hmi : (optVal o.minimum_price_per_night).truthy <;>
      cases hmr : (optVal o.minimum_rating).truthy <;>
      simp [getAllPropertiesQuery, wherePushes, whereOptionUsed_eq, havingOptionUsed_eq,
        h, optVal_some, htv, hc, how, hmi, hmr]
  · have h15 : ((1.5 : Rat) == 0) = false := by
      rw [beq_eq_false_iff_ne]; norm_num
    simp [getAllPropertiesQuery, wherePushes, whereOptionUsed_eq, havingOptionUsed_eq,
      optVal_none, optVal_some, JsValue.truthy, JsValue.toNumber, h15]
    norm_num

/-- Witness for C6 at options with only minimum_price_per_night = 2. -/
theorem getAllProperties_price_bounds_converted_to_minor_units_witness :
    JsValue.num ((JsValue.num 2).toNumber * 100)
      ∈ (getAllPropertiesQuery ⟨none, none, some (JsValue.num 2), none, none⟩
          (JsValue.num 10)).2 :=
  (getAllProperties_price_bounds_converted_to_minor_units
    ⟨none, none, some (JsValue.num 2), none, none⟩ (JsValue.num 10)
    (JsValue.num 2)).1 rfl (by decide)

set_option maxRecDepth 8000 in
/-- C7: a call without a limit argument uses the JS default of 10: the
final entry of the argument list is the number 10 and the query string ends
with a LIMIT placeholder whose index is the length of the argument list. -/
theorem getAllProperties_default_limit_is_ten (o : Options) :
    ((getAllPropertiesQueryNoLimit o).2).getLast? = some defaultLimit ∧
    strEnds (getAllPropertiesQueryNoLimit o).1
      ("LIMIT $" ++ toString ((getAllPropertiesQueryNoLimit o).2).length) = true := by
  cases hc : (optVal o.city).truthy <;> cases how : (optVal o.owner_id).truthy <;>
    cases hmi : (optVal o.minimum_price_per_night).truthy <;>
    cases hma : (optVal o.maximum_price_per_night).truthy <;>
    cases hmr : (optVal o.minimum_rating).truthy <;>
    simp [getAllPropertiesQueryNoLimit, getAllPropertiesQuery, wherePushes,
      whereOptionUsed_eq, havingOptionUsed_eq, hc, how, hmi, hma, hmr] <;>
    decide

set_option maxRecDepth 8000 in
/-- C8: getAllReservations builds the same query text and argument list for
every guest id: the guest filter is the literal 1 in the query text, the
only bound value is the limit, and the output is therefore independent of
the guest_id parameter. -/
theorem getAllReservations_output_independent_of_guest_id (g1 g2 limit : JsValue) :
    getAllReservationsQuery g1 limit = getAllReservationsQuery g2 limit ∧
    (getAllReservationsQuery g1 limit).2 = [limit] ∧
    strIncludes (getAllReservationsQuery g1 limit).1
      "WHERE reservations.guest_id = 1" = true := by
  refine ⟨rfl, rfl, ?_⟩
  show strIncludes getAllReservationsText "WHERE reservations.guest_id = 1" = true
  decide

/-- C9: when the store returns zero rows, both user lookups resolve to the
explicit absent value rather than an error. -/
theorem user_lookups_resolve_to_null_on_zero_rows {Row : Type} (email id : JsValue)
    (db : String → List JsValue → Except String (List Row))
    (hdb : ∀ s v, db s v = Except.ok []) :
    getUserWithEmail email db = Except.ok none ∧
    getUserWithId id db = Except.ok none := by
  simp [getUserWithEmail, getUserWithId, hdb, singleRowOrNull, Except.map]

/-- Witness for C9 with a store that always returns zero rows. -/
theorem user_lookups_resolve_to_null_on_zero_rows_witness :
    getUserWithEmail (JsValue.str "a") (fun _ _ => Except.ok ([] : List Unit))
      = Except.ok none ∧
    getUserWithId (JsValue.num 1) (fun _ _ => Except.ok ([] : List Unit))
      = Except.ok none :=
  user_lookups_resolve_to_null_on_zero_rows (JsValue.str "a") (JsValue.num 1)
    (fun _ _ => Except.ok []) (fun _ _ => rfl)

/-- C10: on zero rows the two list-returning operations disagree at the
public interface: getAllReservations resolves to null while
getAllProperties resolves to the unchanged (empty) rows array, and these
two outcomes are distinct. -/
theorem empty_result_reservations_null_properties_empty_array {Row : Type}
    (g limit : JsValue) (o : Options)
    (db : String → List JsValue → Except String (List Row))
    (hdb : ∀ s v, db s v = Except.ok []) :
    getAllReservations g limit db = Except.ok QueryOutcome.null ∧
    getAllProperties o limit db = Except.ok (QueryOutcome.rows ([] : List Row)) ∧
    QueryOutcome.null ≠ QueryOutcome.rows ([] : List Row) := by
  refine ⟨?_, ?_, by simp⟩ <;>
    simp [getAllReservations, getAllProperties, hdb, Except.map]

/-- Witness for C10 with a store that always returns zero rows. -/
theorem empty_result_reservations_null_properties_empty_array_witness :
    getAllReservations (JsValue.num 1) (JsValue.num 10)
        (fun _ _ => Except.ok ([] : List Unit)) = Except.ok QueryOutcome.null ∧
    getAllProperties Options.empty (JsValue.num 10)
        (fun _ _ => Except.ok ([] : List Unit))
      = Except.ok (QueryOutcome.rows ([] : List Unit)) ∧
    QueryOutcome.null ≠ QueryOutcome.rows ([] : List Unit) :=
  empty_result_reservations_null_properties_empty_array (JsValue.num 1)
    (JsValue.num 10) Options.empty (fun _ _ => Except.ok []) (fun _ _ => rfl)
